import Mathlib

/-!
Shallow embedding of the news-ingestion pipeline of this repository
(`news_scraper.py`, plus the scheduler/startup glue of `main.py`).

The Python module binds some names several times (the file contains
repeated snapshots); per Python semantics the embedding follows the
final bindings: `WEBSITES` as configured last, `upload_image_to_gridfs`
with its try/except returning `None` on any failure, and `fetch_news`.
Note that the comment line near the end of `fetch_news` starts at column
0 but the `await db.news.update_one(...)` / `articles_processed += 1`
lines after it are indented at function level, so they are part of the
body of `fetch_news` and run once after the source loop; the embedding
models them faithfully (`title` / `news_data` being unbound there is an
`UnboundLocalError`, modelled as an error outcome).
-/

namespace Bloomathon

/-! Character-list implementations of the string primitives the scraper
uses (`str.strip()`, `str.split(sep)` with a one-character separator,
`str.startswith`). They agree with the Python originals on the inputs
concerned (whitespace is modelled as the ASCII whitespace characters)
and are written by structural recursion so that concrete runs reduce. -/

def wsChar (c : Char) : Bool :=
  c == ' ' || c == '\t' || c == '\n' || c == '\r'

/-- Models `str.strip()`: drop ASCII whitespace from both ends. -/
def trimStr (s : String) : String :=
  ⟨(((s.data.dropWhile wsChar).reverse.dropWhile wsChar).reverse)⟩

def splitOnCharAux (sep : Char) : List Char → List Char → List String
  | [], acc => [⟨acc.reverse⟩]
  | c :: cs, acc =>
      if c == sep then ⟨acc.reverse⟩ :: splitOnCharAux sep cs []
      else splitOnCharAux sep cs (c :: acc)

/-- Models `str.split(sep)` for a one-character separator. -/
def splitOnChar (sep : Char) (s : String) : List String :=
  splitOnCharAux sep s.data []

/-- Models `str.startswith(p)`. -/
def startsWithStr (s p : String) : Bool :=
  p.data.isPrefixOf s.data

/-- Markup tree as BeautifulSoup sees it: element nodes carry a tag name
and an attribute list, leaves are text nodes. -/
inductive Html where
  | text : String → Html
  | elem : String → List (String × String) → List Html → Html

def tagOf : Html → String
  | .text _ => ""
  | .elem t _ _ => t

def attrsOf : Html → List (String × String)
  | .text _ => []
  | .elem _ a _ => a

/-- Attribute lookup, `tag.get(name)` / `tag["name"]` with `has_attr`. -/
def getAttr (h : Html) (name : String) : Option String :=
  ((attrsOf h).find? (fun p => p.1 == name)).map (fun p => p.2)

/-- Space-separated class list of an element. -/
def classesOf (h : Html) : List String :=
  (splitOnChar ' ' ((getAttr h "class").getD "")).filter (fun c => c != "")

mutual

/-- Models `tag.get_text(strip=True)`: each text fragment stripped, all
fragments concatenated in document order. -/
def getText : Html → String
  | .text s => trimStr s
  | .elem _ _ cs => getTexts cs

def getTexts : List Html → String
  | [] => ""
  | c :: cs => getText c ++ getTexts cs

end

mutual

/-- Preorder list of all element nodes of a tree paired with their
ancestor chain (root first, the element itself excluded). -/
def collectNodes (anc : List Html) : Html → List (Html × List Html)
  | .text _ => []
  | .elem t a cs =>
      (Html.elem t a cs, anc) :: collectNodesList (anc ++ [Html.elem t a cs]) cs

def collectNodesList (anc : List Html) : List Html → List (Html × List Html)
  | [] => []
  | c :: cs => collectNodes anc c ++ collectNodesList anc cs

end

/-- One simple CSS selector `tag.cls1.cls2`, the only selector form the
configured descriptors use. -/
structure Simple where
  tag : String
  classes : List String
deriving DecidableEq

/-- Parses a descendant-combinator selector string such as
`"h6.fs-13.mb-0 a"` into its simple selectors. -/
def parseSelector (s : String) : List Simple :=
  (splitOnChar ' ' s).filterMap (fun part =>
    if part = "" then none
    else match splitOnChar '.' part with
      | [] => none
      | t :: cls => some ⟨t, cls⟩)

def matchesSimple (s : Simple) (h : Html) : Bool :=
  tagOf h == s.tag && s.classes.all (fun c => (classesOf h).contains c)

/-- Matches a chain of simple selectors against an ancestor list
(root-first), descendant combinator: each selector must match some
strictly later ancestor than the previous one. -/
def seqMatch : List Simple → List Html → Bool
  | [], _ => true
  | _ :: _, [] => false
  | s :: ss, n :: ns => if matchesSimple s n then seqMatch ss ns else seqMatch (s :: ss) ns

/-- Models `soup.select(selector)`: all elements, in document order, that
match the last simple selector and whose ancestor chain matches the rest. -/
def select (selStr : String) (doc : Html) : List Html :=
  match (parseSelector selStr).reverse with
  | [] => []
  | lastS :: revInit =>
      (collectNodes [] doc).filterMap (fun p =>
        if matchesSimple lastS p.1 && seqMatch revInit.reverse p.2 then some p.1 else none)

/-- Models `soup.select_one(selector)`. -/
def selectOne (selStr : String) (doc : Html) : Option Html :=
  (select selStr doc).head?

/-- Python truthiness of an optional string: `None` and `""` are falsy. -/
def pyTruthy : Option String → Bool
  | none => false
  | some s => s != ""

/-- Python `a or b` on optional strings: returns `a` when truthy, else `b`
(whatever `b` is, even `None` or `""`). -/
def pyOr (a b : Option String) : Option String :=
  if pyTruthy a then a else b

/-- One source descriptor of the `WEBSITES` configuration. -/
structure Website where
  url : String
  title_selector : String
  link_selector : String
  image_selector : String
  max_articles : Nat
deriving DecidableEq

/-- The configured source list (the final `WEBSITES` binding of the module). -/
def WEBSITES : List Website :=
  [⟨"https://vanadzor.am/news/", "h4.entry-title a", "h4.entry-title a", "img", 6⟩,
   ⟨"https://am.sputniknews.ru/geo_Vanadzor/", "a.list__title", "a", "img", 3⟩,
   ⟨"https://ru.aravot.am/tag/%D0%B2%D0%B0%D0%BD%D0%B0%D0%B4%D0%B7%D0%BE%D1%80/",
    "h6.fs-13.mb-0 a", "h6.fs-13.mb-0 a", "img.rounded", 1⟩]

/-- One persisted news document, as assembled into `news_data`:
`str(image_id) if image_id else None` makes the media reference an
optional string, `published_at` is the run timestamp. -/
structure NewsRecord where
  title : String
  link : String
  image_id : Option String
  published_at : Nat
deriving DecidableEq

/-- Observable actions of one run: listing-page fetch attempts,
detail-page fetch attempts, and `db.news.update_one` upsert calls.
`trailing` marks the dangling post-loop upsert at the end of
`fetch_news` (as opposed to the per-candidate one inside the loop). -/
inductive Event where
  | fetchListing (url : String) (ok : Bool)
  | fetchDetail (url : String) (ok : Bool)
  | mergeEv (trailing : Bool) (filterTitle : String) (doc : NewsRecord)
deriving DecidableEq

/-- State threaded through one run of `fetch_news`: the `db.news`
collection (a plain list of documents — MongoDB enforces no uniqueness
on `title`), the `unique_articles` set, the last values bound to the
function locals `title` and `news_data` (`none` = still unbound), and
the event log. -/
structure St where
  store : List NewsRecord
  uniq : List String
  lastTitle : Option String
  lastData : Option NewsRecord
  log : List Event
deriving DecidableEq

/-- External world of a run: listing-page fetch, detail-page fetch
(`none` = the `requests` call raised), media fetch+upload (`none` = the
caught failure inside `upload_image_to_gridfs`), and the clock
(`datetime.now()`). -/
structure Env where
  listing : String → Option Html
  detail : String → Option Html
  upload : String → Option String
  now : Nat

/-- Models `upload_image_to_gridfs` (final binding): its try/except
catches every fetch/upload failure and returns `None`, so it is a total
function into an optional file id — it never raises. -/
def upload_image_to_gridfs (env : Env) (img_url : String) : Option String :=
  env.upload img_url

/-- Models `db.news.update_one({"title": t}, {"$set": doc}, upsert=True)`:
the first document whose `title` equals `t` is replaced wholesale by
`doc` (the `$set` covers every field); if none matches, `doc` is
inserted (on upsert-insert the `$set` value of `title` wins over the
filter equality, so the inserted document is exactly `doc`). -/
def updateOne (store : List NewsRecord) (t : String) (doc : NewsRecord) : List NewsRecord :=
  match store with
  | [] => [doc]
  | r :: rs => if r.title = t then doc :: rs else r :: updateOne rs t doc

/-- Third component of `url.split("/")`, the host of an absolute URL. -/
def hostOf (url : String) : String :=
  (splitOnChar '/' url).getD 2 ""

/-- Models the manual link absolutisation of `fetch_news` (lines 170-171):
a link already starting with `"http"` is kept; a root-relative link
(leading `"/"`) becomes `"https://" + host-of-listing-url + link`; any
other link is appended to the listing URL. -/
def resolveLink (site : Website) (link : String) : String :=
  if startsWithStr link "http" then link
  else if startsWithStr link "/" then "https://" ++ hostOf site.url ++ link
  else site.url ++ link

/-- Listing URL up to and including its last `"/"`. -/
def baseDir (u : String) : String :=
  String.join (((splitOnChar '/' u).dropLast).map (fun s => s ++ "/"))

/-- Models `urllib.parse.urljoin(base, ref)` for the reference shapes this
scraper produces: absolute references, scheme-relative, root-relative
and plain relative references without dot segments. -/
def urljoinModel (base ref : String) : String :=
  if startsWithStr ref "http" then ref
  else if startsWithStr ref "//" then ((splitOnChar ':' base).headD "https") ++ ":" ++ ref
  else if startsWithStr ref "/" then
    ((splitOnChar ':' base).headD "https") ++ "://" ++ hostOf base ++ ref
  else baseDir base ++ ref

/-- Models lines 181-186 of `fetch_news`: `select_one` on the configured
image selector, then `img_tag.get("data-src") or img_tag.get("src") or
img_tag.get("srcset")` with Python truthiness (an empty string is falsy
and falls through; the final operand is returned as-is). -/
def extractImageRef (site : Website) (detailDoc : Html) : Option String :=
  match selectOne site.image_selector detailDoc with
  | none => none
  | some imgTag =>
      pyOr (getAttr imgTag "data-src") (pyOr (getAttr imgTag "src") (getAttr imgTag "srcset"))

/-- Models the body of the candidate loop of `fetch_news` (lines 161-206)
for one candidate element: bind `title`, skip duplicates and falsy
links, record the title in `unique_articles`, absolutise the link,
fetch the detail page (failure skips the candidate), extract and join
the image reference, upload media unless the URL is a `data:image`
reference, build `news_data` and upsert it. Returns the new state and
whether `articles_processed` was incremented. -/
def processArticle (env : Env) (site : Website) (st : St) (article : Html) : St × Bool :=
  let title := getText article
  let link? := getAttr article "href"
  let st1 := { st with lastTitle := some title }
  if st.uniq.contains title || !(pyTruthy link?) then (st1, false)
  else
    let link := resolveLink site (link?.getD "")
    let st2 := { st1 with uniq := title :: st1.uniq }
    match env.detail link with
    | none => ({ st2 with log := st2.log ++ [Event.fetchDetail link false] }, false)
    | some ddoc =>
        let st3 := { st2 with log := st2.log ++ [Event.fetchDetail link true] }
        let imgRef := extractImageRef site ddoc
        let imgUrl : Option String :=
          if pyTruthy imgRef then some (urljoinModel site.url (imgRef.getD "")) else none
        let image_id : Option String :=
          match imgUrl with
          | some u => if startsWithStr u "data:image" then none else upload_image_to_gridfs env u
          | none => none
        let doc : NewsRecord := ⟨title, link, image_id, env.now⟩
        ({ st3 with store := updateOne st3.store title doc,
                    lastData := some doc,
                    log := st3.log ++ [Event.mergeEv false title doc] }, true)

/-- Models the candidate loop with its per-source counter: break once
`articles_processed >= max_articles`, otherwise process candidates in
listing order. -/
def processArticles (env : Env) (site : Website) : List Html → Nat → St → St
  | [], _, st => st
  | a :: as, cnt, st =>
      if site.max_articles ≤ cnt then st
      else
        match processArticle env site st a with
        | (st', true) => processArticles env site as (cnt + 1) st'
        | (st', false) => processArticles env site as cnt st'

/-- Models one iteration of the source loop of `fetch_news`: attempt the
listing fetch (failure logs and continues), select the title elements,
continue if none, else run the candidate loop with a fresh counter. -/
def processSite (env : Env) (st : St) (site : Website) : St :=
  match env.listing site.url with
  | none => { st with log := st.log ++ [Event.fetchListing site.url false] }
  | some doc =>
      let st1 := { st with log := st.log ++ [Event.fetchListing site.url true] }
      let articles := select site.title_selector doc
      if articles.isEmpty then st1
      else processArticles env site articles 0 st1

/-- Models the dangling post-loop block (lines 216-222): one more
`update_one({"title": title}, {"$set": news_data}, upsert=True)` with
the current values of the loop locals — an `UnboundLocalError` when
`title` or `news_data` was never bound during the loop. -/
def finishRun (st : St) : St × Except String Unit :=
  match st.lastTitle, st.lastData with
  | some t, some d =>
      ({ st with store := updateOne st.store t d,
                 log := st.log ++ [Event.mergeEv true t d] }, Except.ok ())
  | _, _ => (st, Except.error "UnboundLocalError")

/-- Models `fetch_news` over a source list: the store-non-empty gate
returns immediately with no events; otherwise every source is processed
in order and the dangling post-loop block runs once at the end. -/
def fetch_news (env : Env) (sites : List Website) (store : List NewsRecord) :
    St × Except String Unit :=
  if 0 < store.length then (⟨store, [], none, none, []⟩, Except.ok ())
  else finishRun (List.foldl (processSite env) ⟨store, [], none, none, []⟩ sites)

/-- Models the `startup` handler of `main.py` (lines 1170-1173): it calls
`fetch_news` when the store is empty, with no try/except of its own, so
any exception of `fetch_news` propagates. -/
def startup (env : Env) (store : List NewsRecord) : St × Except String Unit :=
  if store.length = 0 then fetch_news env WEBSITES store
  else (⟨store, [], none, none, []⟩, Except.ok ())

/-! Concrete fixtures: small listing/detail documents and environments
used to evaluate the model on explicit inputs. -/

/-- Empty detail page: no element matches any image selector. -/
def plainDetail : Html := .elem "html" [] []

/-- Listing with two `h4`-wrapped anchors, the second one without `href`. -/
def docC1 : Html :=
  .elem "html" [] [
    .elem "h4" [] [.elem "a" [("href", "/x")] [.text "Title A"]],
    .elem "h4" [] [.elem "a" [] [.text "Title B"]]]

def siteC1 : Website := ⟨"https://s1.example/news/", "h4 a", "h4 a", "img", 2⟩

def envC1 : Env := ⟨fun _ => some docC1, fun _ => some plainDetail, fun _ => none, 0⟩

/-- Listing with a single `h4`-wrapped anchor titled `T`. -/
def docT1 : Html :=
  .elem "html" [] [.elem "h4" [] [.elem "a" [("href", "/a")] [.text "T"]]]

/-- Second listing yielding the identical title `T` under another link. -/
def docT2 : Html :=
  .elem "html" [] [.elem "h4" [] [.elem "a" [("href", "/b")] [.text "T"]]]

def siteC3a : Website := ⟨"https://s1.example/news/", "h4 a", "h4 a", "img", 5⟩

def siteC3b : Website := ⟨"https://s2.example/list/", "h4 a", "h4 a", "img", 5⟩

/-- Both listings resolve, every detail-page fetch fails. -/
def envC3 : Env :=
  ⟨fun u => if u = siteC3a.url then some docT1
            else if u = siteC3b.url then some docT2 else none,
   fun _ => none, fun _ => none, 0⟩

def siteC4a : Website := ⟨"https://s1.example/news/", "h4 a", "h4 a", "img", 1⟩

def siteC4b : Website := ⟨"https://s2.example/list/", "h4 a", "h4 a", "img", 5⟩

/-- Listing with one linked candidate for the capped source. -/
def docC4a : Html :=
  .elem "html" [] [.elem "h4" [] [.elem "a" [("href", "/x")] [.text "Title A"]]]

/-- Listing whose only candidate has no `href`. -/
def docC4b : Html :=
  .elem "html" [] [.elem "h4" [] [.elem "a" [] [.text "Title B"]]]

def envC4 : Env :=
  ⟨fun u => if u = siteC4a.url then some docC4a
            else if u = siteC4b.url then some docC4b else none,
   fun _ => some plainDetail, fun _ => none, 0⟩

/-- Network completely down: every fetch fails. -/
def envDown : Env := ⟨fun _ => none, fun _ => none, fun _ => none, 0⟩

def siteC9 : Website := ⟨"https://vanadzor.am/news/", "h4 a", "h4 a", "img", 1⟩

/-- The example markup of the spec: two `h4`-wrapped anchors. -/
def docC9 : Html :=
  .elem "html" [] [
    .elem "h4" [] [.elem "a" [("href", "/x")] [.text "Title A"]],
    .elem "h4" [] [.elem "a" [("href", "/y")] [.text "Title B"]]]

def envC9 : Env := ⟨fun _ => some docC9, fun _ => some plainDetail, fun _ => none, 0⟩

/-- Detail page whose image element has a present-but-empty lazy-load
attribute next to a non-empty direct source attribute. -/
def docC8 : Html :=
  .elem "html" [] [.elem "img" [("data-src", ""), ("src", "https://img.example/i.png")] []]

def siteC8 : Website := ⟨"https://s.example/", "h4 a", "h4 a", "img", 1⟩

/-- Image-reference extraction as the claim words it: the `data-src`
value of the first matching element whenever that attribute is present,
else the `src` value whenever present, else `srcset`; `none` when no
element matches. Stated from the spec for comparison with the code's
`extractImageRef`. -/
def extractImageRefClaimed (site : Website) (detailDoc : Html) : Option String :=
  match selectOne site.image_selector detailDoc with
  | none => none
  | some imgTag =>
      match getAttr imgTag "data-src" with
      | some v => some v
      | none =>
          match getAttr imgTag "src" with
          | some v => some v
          | none => getAttr imgTag "srcset"

/-- Predicate selecting the upsert events of a run log. -/
def isMergeFor (t : String) : Event → Bool
  | .mergeEv _ ft _ => ft == t
  | _ => false

/-- Predicate selecting the candidate-loop upsert events of a run log
(the dangling post-loop upsert excluded). -/
def loopMergeFlag (t : String) : Event → Bool
  | .mergeEv trailing ft _ => !trailing && ft == t
  | _ => false

/-- Number of candidate-loop upserts keyed by title `t` in a run log. -/
def countLoopMerges (t : String) (log : List Event) : Nat :=
  log.countP (loopMergeFlag t)

/-- Invariant tying the candidate loop's upserts to the RunState set:
for a fixed title `t`, either no loop upsert keyed by `t` happened yet,
or exactly one did and `t` is in `unique_articles`. -/
def MergeInv (t : String) (st : St) : Prop :=
  countLoopMerges t st.log = 0 ∨
    (countLoopMerges t st.log = 1 ∧ st.uniq.contains t = true)

/-- Empty run state over an empty store. -/
def st0 : St := ⟨[], [], none, none, []⟩

/-- Candidate anchor used in witnesses: title `T`, link `/a`. -/
def anchorT : Html := .elem "a" [("href", "/a")] [.text "T"]

/-- Candidate anchor without any `href`. -/
def anchorNoHref : Html := .elem "a" [] [.text "X"]

/-- Detail page whose image element carries a root-relative `src`. -/
def docC6detail : Html := .elem "html" [] [.elem "img" [("src", "/img/p.png")] []]

def siteC6 : Website := ⟨"https://s1.example/news/", "h4 a", "h4 a", "img", 5⟩

/-- Listings resolve, detail pages resolve, but every media fetch/upload
fails (`upload_image_to_gridfs` returns `None`). -/
def envC6 : Env :=
  ⟨fun _ => some docT1, fun _ => some docC6detail, fun _ => none, 7⟩

/-- Detail page with a non-empty lazy-load attribute on its image. -/
def docC8lazy : Html :=
  .elem "html" [] [.elem "img" [("data-src", "https://img.example/lazy.png")] []]

/-- Single stored record used to exercise the non-empty-store gate. -/
def rec1 : NewsRecord := ⟨"t", "https://l.example/", none, 0⟩

/-- C1: the claimed at-most-one-ContentRecord-per-distinct-title
invariant fails on the code. At the failing input — one source whose
listing yields a fully processed candidate "Title A" followed by a
candidate "Title B" without `href` — a single run of `fetch_news` from
the empty store ends with TWO records titled "Title A": the dangling
post-loop upsert filters on the last iterated title "Title B" but
`$set`s the last merged document, so the upsert inserts a duplicate of
the "Title A" record. A second run against identical source content
short-circuits on the non-empty store and leaves the duplicate pair in
place. -/
theorem C1_duplicate_title_after_identical_runs :
    ((fetch_news envC1 [siteC1] []).1.store.map (fun r => r.title)) = ["Title A", "Title A"] ∧
    ((fetch_news envC1 [siteC1] []).1.store.countP (fun r => r.title == "Title A")) = 2 ∧
    (fetch_news envC1 [siteC1] ((fetch_news envC1 [siteC1] []).1.store)).1.store
      = (fetch_news envC1 [siteC1] []).1.store := by
  decide

/-- C3: counterexample to the claim as stated. Two sources yield the
identical trimmed title "T" in the same run, the first accepted
occurrence's detail-page fetch fails, the second occurrence is skipped
via the RunState set — so ZERO merge calls are performed for that title
during the run, not exactly one. -/
theorem C3_counterexample :
    (select "h4 a" docT1).map getText = ["T"] ∧
    (select "h4 a" docT2).map getText = ["T"] ∧
    (fetch_news envC3 [siteC3a, siteC3b] []).1.log.countP (isMergeFor "T") = 0 := by
  decide

/-- C4: the per-source cap fails on the code. At the failing input — a
source capped at `max_articles = 1` whose listing yields the processed
candidate "Title A", followed by a second source whose only candidate
has no `href` — the run ends with two stored records that both originate
from the capped source: the dangling post-loop upsert inserts a second
copy of the capped source's record. -/
theorem C4_cap_exceeded_at_failing_input :
    siteC4a.max_articles = 1 ∧
    (fetch_news envC4 [siteC4a, siteC4b] []).1.store =
      [⟨"Title A", "https://s1.example/x", none, 0⟩,
       ⟨"Title A", "https://s1.example/x", none, 0⟩] := by
  decide

/-- C7: the no-fatal-failure claim fails on the code. With an empty
store and every configured listing fetch failing, the store gate passes,
all three sources are skipped, no candidate is ever iterated, and the
dangling post-loop `update_one` then reads the never-bound local
`title`: `fetch_news` raises `UnboundLocalError`, and the `startup`
handler of `main.py` has no try/except, so the error propagates uncaught
to the host instead of being caught at the run boundary and logged. -/
theorem C7_uncaught_error_at_failing_input :
    (fetch_news envDown WEBSITES []).2 = Except.error "UnboundLocalError" ∧
    (fetch_news envDown WEBSITES []).1.log =
      [Event.fetchListing "https://vanadzor.am/news/" false,
       Event.fetchListing "https://am.sputniknews.ru/geo_Vanadzor/" false,
       Event.fetchListing "https://ru.aravot.am/tag/%D0%B2%D0%B0%D0%BD%D0%B0%D0%B4%D0%B7%D0%BE%D1%80/" false] ∧
    (startup envDown []).2 = Except.error "UnboundLocalError" :=
  ⟨rfl, by decide, rfl⟩

/-- C8: counterexample to the claimed attribute priority. On a detail
page whose matching image element carries a present-but-empty `data-src`
next to a non-empty `src`, the code's Python `or` chain treats the empty
`data-src` as absent and returns the `src` value, while the claim as
stated returns the present `data-src` value (the empty string). -/
theorem C8_counterexample :
    getAttr (Html.elem "img" [("data-src", ""), ("src", "https://img.example/i.png")] [])
        "data-src" = some "" ∧
    extractImageRef siteC8 docC8 = some "https://img.example/i.png" ∧
    extractImageRefClaimed siteC8 docC8 = some "" ∧
    extractImageRef siteC8 docC8 ≠ extractImageRefClaimed siteC8 docC8 := by
  decide

/-- C9: counterexample to the link-resolution part of the claim. On the
spec's own example (descriptor `h4 a` with `max_articles = 1`, listing
URL `https://vanadzor.am/news/`), the single processed candidate is
"Title A" with relative link `/x`, but the code resolves it to
`https://vanadzor.am/x` — `"https://" + host + link` — which is not
`<base>/x` for the listing URL `<base>`. -/
theorem C9_counterexample :
    ((fetch_news envC9 [siteC9] []).1.log.filter
        (fun e => match e with | .mergeEv false _ _ => true | _ => false))
      = [Event.mergeEv false "Title A" ⟨"Title A", "https://vanadzor.am/x", none, 0⟩] ∧
    "https://vanadzor.am/x" ≠ siteC9.url ++ "/x" := by
  decide

end Bloomathon

namespace Bloomathon

theorem processArticle_skip (env : Env) (site : Website) (st : St) (a : Html)
    (h : getText a ∈ st.uniq ∨ pyTruthy (getAttr a "href") = false) :
    processArticle env site st a = ({ st with lastTitle := some (getText a) }, false) := by
  rcases h with h | h <;> simp [processArticle, h]

theorem processArticle_detailFail (env : Env) (site : Website) (st : St) (a : Html)
    (l0 : String) (hl : getAttr a "href" = some l0) (hne : l0 ≠ "")
    (hu : getText a ∉ st.uniq)
    (hd : env.detail (resolveLink site l0) = none) :
    processArticle env site st a =
      ({ st with lastTitle := some (getText a),
                 uniq := getText a :: st.uniq,
                 log := st.log ++ [Event.fetchDetail (resolveLink site l0) false] }, false) := by
  simp [processArticle, hl, hu, hd, pyTruthy, hne]

theorem processArticle_success (env : Env) (site : Website) (st : St) (a : Html)
    (l0 : String) (ddoc : Html)
    (hl : getAttr a "href" = some l0) (hne : l0 ≠ "")
    (hu : getText a ∉ st.uniq)
    (hd : env.detail (resolveLink site l0) = some ddoc) :
    processArticle env site st a =
      (let image_id : Option String :=
        match (if pyTruthy (extractImageRef site ddoc) = true then
                some (urljoinModel site.url ((extractImageRef site ddoc).getD ""))
              else none) with
        | some u => if startsWithStr u "data:image" = true then none else upload_image_to_gridfs env u
        | none => none
      let doc : NewsRecord := ⟨getText a, resolveLink site l0, image_id, env.now⟩
      ({ st with lastTitle := some (getText a),
                 uniq := getText a :: st.uniq,
                 lastData := some doc,
                 store := updateOne st.store (getText a) doc,
                 log := st.log ++ [Event.fetchDetail (resolveLink site l0) true,
                                   Event.mergeEv false (getText a) doc] }, true)) := by
  simp [processArticle, hl, hu, hd, pyTruthy, hne]

theorem pyTruthy_href (a : Html) (h : pyTruthy (getAttr a "href") = true) :
    ∃ l0, getAttr a "href" = some l0 ∧ l0 ≠ "" := by
  cases hg : getAttr a "href" with
  | none => rw [hg] at h; simp [pyTruthy] at h
  | some l0 =>
      refine ⟨l0, rfl, ?_⟩
      rw [hg] at h
      simpa [pyTruthy] using h

theorem processArticle_log_extend (env : Env) (site : Website) (st : St) (a : Html) :
    ∃ t, ((processArticle env site st a).1).log = st.log ++ t := by
  by_cases h1 : getText a ∈ st.uniq ∨ pyTruthy (getAttr a "href") = false
  · exact ⟨[], by rw [processArticle_skip env site st a h1]; simp⟩
  · push_neg at h1
    obtain ⟨hmem, htr⟩ := h1
    have htr' : pyTruthy (getAttr a "href") = true := by
      revert htr; cases pyTruthy (getAttr a "href") <;> simp
    obtain ⟨l0, hl, hne⟩ := pyTruthy_href a htr'
    cases hd : env.detail (resolveLink site l0) with
    | none =>
        rw [processArticle_detailFail env site st a l0 hl hne hmem hd]
        exact ⟨_, rfl⟩
    | some ddoc =>
        rw [processArticle_success env site st a l0 ddoc hl hne hmem hd]
        exact ⟨_, rfl⟩

theorem processArticles_log_extend (env : Env) (site : Website) (as : List Html) :
    ∀ (cnt : Nat) (st : St), ∃ t, (processArticles env site as cnt st).log = st.log ++ t := by
  induction as with
  | nil => intro cnt st; exact ⟨[], by simp [processArticles]⟩
  | cons a as ih =>
      intro cnt st
      rw [processArticles]
      split
      · exact ⟨[], by simp⟩
      · obtain ⟨t1, ht1⟩ := processArticle_log_extend env site st a
        rcases hpa : processArticle env site st a with ⟨st', b⟩
        rw [hpa] at ht1
        have ht1' : st'.log = st.log ++ t1 := ht1
        cases b
        · obtain ⟨t2, ht2⟩ := ih cnt st'
          exact ⟨t1 ++ t2, by simp [ht2, ht1']⟩
        · obtain ⟨t2, ht2⟩ := ih (cnt + 1) st'
          exact ⟨t1 ++ t2, by simp [ht2, ht1']⟩

theorem processSite_none (env : Env) (st : St) (site : Website)
    (h : env.listing site.url = none) :
    processSite env st site = { st with log := st.log ++ [Event.fetchListing site.url false] } := by
  simp [processSite, h]

theorem processSite_some (env : Env) (st : St) (site : Website) (doc : Html)
    (h : env.listing site.url = some doc) :
    processSite env st site =
      (if (select site.title_selector doc).isEmpty then
        { st with log := st.log ++ [Event.fetchListing site.url true] }
      else processArticles env site (select site.title_selector doc) 0
        { st with log := st.log ++ [Event.fetchListing site.url true] }) := by
  simp [processSite, h]

theorem processSite_log_extend (env : Env) (st : St) (site : Website) :
    ∃ t, (processSite env st site).log = st.log ++ t := by
  cases hl : env.listing site.url with
  | none => rw [processSite_none env st site hl]; exact ⟨_, rfl⟩
  | some doc =>
      rw [processSite_some env st site doc hl]
      by_cases he : (select site.title_selector doc).isEmpty
      · rw [if_pos he]; exact ⟨_, rfl⟩
      · rw [if_neg he]
        obtain ⟨t, ht⟩ := processArticles_log_extend env site
          (select site.title_selector doc) 0
          { st with log := st.log ++ [Event.fetchListing site.url true] }
        exact ⟨[Event.fetchListing site.url true] ++ t, by rw [ht]; simp⟩

theorem foldl_processSite_log_extend (env : Env) (sites : List Website) :
    ∀ st : St, ∃ t, (List.foldl (processSite env) st sites).log = st.log ++ t := by
  induction sites with
  | nil => intro st; exact ⟨[], by simp⟩
  | cons a rest ih =>
      intro st
      obtain ⟨t1, ht1⟩ := processSite_log_extend env st a
      obtain ⟨t2, ht2⟩ := ih (processSite env st a)
      exact ⟨t1 ++ t2, by simp [List.foldl_cons, ht2, ht1]⟩

theorem processSite_fetch_event (env : Env) (st : St) (site : Website) :
    ∃ ok, Event.fetchListing site.url ok ∈ (processSite env st site).log := by
  cases hl : env.listing site.url with
  | none => rw [processSite_none env st site hl]; exact ⟨false, by simp⟩
  | some doc =>
      rw [processSite_some env st site doc hl]
      by_cases he : (select site.title_selector doc).isEmpty
      · rw [if_pos he]; exact ⟨true, by simp⟩
      · rw [if_neg he]
        obtain ⟨t, ht⟩ := processArticles_log_extend env site
          (select site.title_selector doc) 0
          { st with log := st.log ++ [Event.fetchListing site.url true] }
        refine ⟨true, ?_⟩
        rw [ht]
        simp

theorem foldl_fetch_event (env : Env) (sites : List Website) :
    ∀ (st : St) (site : Website), site ∈ sites →
      ∃ ok, Event.fetchListing site.url ok ∈ (List.foldl (processSite env) st sites).log := by
  induction sites with
  | nil => intro st site h; cases h
  | cons a rest ih =>
      intro st site h
      rcases List.mem_cons.mp h with rfl | h
      · obtain ⟨ok, hok⟩ := processSite_fetch_event env st site
        obtain ⟨t, ht⟩ := foldl_processSite_log_extend env rest (processSite env st site)
        exact ⟨ok, by rw [List.foldl_cons, ht]; exact List.mem_append_left _ hok⟩
      · exact ih (processSite env st a) site h

theorem finishRun_log_extend (st : St) :
    ∃ t, ((finishRun st).1).log = st.log ++ t := by
  unfold finishRun
  rcases st.lastTitle with _ | t <;> rcases st.lastData with _ | d
  · exact ⟨[], by simp⟩
  · exact ⟨[], by simp⟩
  · exact ⟨[], by simp⟩
  · exact ⟨_, rfl⟩

/-- C2: with a non-empty Content Store the run returns immediately —
unchanged store, empty event log (zero fetches, zero merges); with an
empty store the run proceeds and attempts a listing fetch for every
configured source. -/
theorem C2_cold_start_gate (env : Env) (sites : List Website) (store : List NewsRecord) :
    (store ≠ [] →
      fetch_news env sites store = (⟨store, [], none, none, []⟩, Except.ok ())) ∧
    (∀ site ∈ sites, ∃ ok,
      Event.fetchListing site.url ok ∈ (fetch_news env sites []).1.log) := by
  constructor
  · intro h
    simp [fetch_news, List.length_pos.mpr h]
  · intro site hsite
    obtain ⟨ok, hok⟩ := foldl_fetch_event env sites ⟨[], [], none, none, []⟩ site hsite
    obtain ⟨t, ht⟩ := finishRun_log_extend (List.foldl (processSite env) ⟨[], [], none, none, []⟩ sites)
    refine ⟨ok, ?_⟩
    simp only [fetch_news]
    rw [if_neg (by simp)]
    rw [ht]
    exact List.mem_append_left _ hok

end Bloomathon

namespace Bloomathon

@[simp] theorem loopMergeFlag_fetchListing (t u : String) (b : Bool) :
    loopMergeFlag t (.fetchListing u b) = false := rfl

@[simp] theorem loopMergeFlag_fetchDetail (t u : String) (b : Bool) :
    loopMergeFlag t (.fetchDetail u b) = false := rfl

@[simp] theorem loopMergeFlag_mergeEv (t : String) (tr : Bool) (ft : String) (d : NewsRecord) :
    loopMergeFlag t (.mergeEv tr ft d) = (!tr && ft == t) := rfl

theorem countLoopMerges_append (t : String) (l l' : List Event) :
    countLoopMerges t (l ++ l') = countLoopMerges t l + countLoopMerges t l' := by
  simp [countLoopMerges, List.countP_append]

theorem countLoopMerges_fetchDetail (t u : String) (b : Bool) :
    countLoopMerges t [Event.fetchDetail u b] = 0 := by
  simp [countLoopMerges, List.countP_cons]

theorem countLoopMerges_fetchListing (t u : String) (b : Bool) :
    countLoopMerges t [Event.fetchListing u b] = 0 := by
  simp [countLoopMerges, List.countP_cons]

theorem countLoopMerges_pair (t u : String) (b : Bool) (ft : String) (d : NewsRecord) :
    countLoopMerges t [Event.fetchDetail u b, Event.mergeEv false ft d]
      = if ft = t then 1 else 0 := by
  by_cases h : ft = t <;> simp [countLoopMerges, List.countP_cons, beq_iff_eq, h]

theorem processArticle_MergeInv (env : Env) (site : Website) (st : St) (a : Html)
    (t : String) (h : MergeInv t st) :
    MergeInv t ((processArticle env site st a).1) := by
  by_cases h1 : getText a ∈ st.uniq ∨ pyTruthy (getAttr a "href") = false
  · rw [processArticle_skip env site st a h1]; exact h
  · push_neg at h1
    obtain ⟨hmem, htr⟩ := h1
    have htr' : pyTruthy (getAttr a "href") = true := by
      revert htr; cases pyTruthy (getAttr a "href") <;> simp
    obtain ⟨l0, hl, hne⟩ := pyTruthy_href a htr'
    cases hd : env.detail (resolveLink site l0) with
    | none =>
        rw [processArticle_detailFail env site st a l0 hl hne hmem hd]
        rcases h with h | ⟨hc, hm⟩
        · left
          show countLoopMerges t (st.log ++ [Event.fetchDetail (resolveLink site l0) false]) = 0
          rw [countLoopMerges_append, h, countLoopMerges_fetchDetail]
        · right
          constructor
          · show countLoopMerges t (st.log ++ [Event.fetchDetail (resolveLink site l0) false]) = 1
            rw [countLoopMerges_append, hc, countLoopMerges_fetchDetail]
          · show (getText a :: st.uniq).contains t = true
            simp only [List.contains_cons, hm, Bool.or_true]
    | some ddoc =>
        rw [processArticle_success env site st a l0 ddoc hl hne hmem hd]
        by_cases hteq : getText a = t
        · subst hteq
          have hzero : countLoopMerges (getText a) st.log = 0 := by
            rcases h with h | ⟨_, hm⟩
            · exact h
            · exact absurd (by simpa using hm) hmem
          right
          constructor
          · show countLoopMerges (getText a) (st.log ++ [Event.fetchDetail (resolveLink site l0) true,
              Event.mergeEv false (getText a) _]) = 1
            rw [countLoopMerges_append, hzero, countLoopMerges_pair]
            simp
          · show ((getText a) :: st.uniq).contains (getText a) = true
            simp [List.contains_cons]
        · rcases h with h | ⟨hc, hm⟩
          · left
            show countLoopMerges t (st.log ++ [Event.fetchDetail (resolveLink site l0) true,
              Event.mergeEv false (getText a) _]) = 0
            rw [countLoopMerges_append, h, countLoopMerges_pair]
            simp [hteq]
          · right
            constructor
            · show countLoopMerges t (st.log ++ [Event.fetchDetail (resolveLink site l0) true,
                Event.mergeEv false (getText a) _]) = 1
              rw [countLoopMerges_append, hc, countLoopMerges_pair]
              simp [hteq]
            · show (getText a :: st.uniq).contains t = true
              simp only [List.contains_cons, hm, Bool.or_true]

theorem processArticles_MergeInv (env : Env) (site : Website) (as : List Html) :
    ∀ (cnt : Nat) (st : St) (t : String), MergeInv t st →
      MergeInv t (processArticles env site as cnt st) := by
  induction as with
  | nil => intro cnt st t h; simpa [processArticles] using h
  | cons a as ih =>
      intro cnt st t h
      rw [processArticles]
      split
      · exact h
      · rcases hpa : processArticle env site st a with ⟨st', b⟩
        have h' : MergeInv t st' := by
          have := processArticle_MergeInv env site st a t h
          rwa [hpa] at this
        cases b
        · exact ih cnt st' t h'
        · exact ih (cnt + 1) st' t h'

theorem processSite_MergeInv (env : Env) (st : St) (site : Website) (t : String)
    (h : MergeInv t st) : MergeInv t (processSite env st site) := by
  cases hl : env.listing site.url with
  | none =>
      rw [processSite_none env st site hl]
      rcases h with h | ⟨hc, hm⟩
      · left
        show countLoopMerges t (st.log ++ [Event.fetchListing site.url false]) = 0
        rw [countLoopMerges_append, h, countLoopMerges_fetchListing]
      · right
        refine ⟨?_, hm⟩
        show countLoopMerges t (st.log ++ [Event.fetchListing site.url false]) = 1
        rw [countLoopMerges_append, hc, countLoopMerges_fetchListing]
  | some doc =>
      rw [processSite_some env st site doc hl]
      have h1 : MergeInv t { st with log := st.log ++ [Event.fetchListing site.url true] } := by
        rcases h with h | ⟨hc, hm⟩
        · left
          show countLoopMerges t (st.log ++ [Event.fetchListing site.url true]) = 0
          rw [countLoopMerges_append, h, countLoopMerges_fetchListing]
        · right
          refine ⟨?_, hm⟩
          show countLoopMerges t (st.log ++ [Event.fetchListing site.url true]) = 1
          rw [countLoopMerges_append, hc, countLoopMerges_fetchListing]
      by_cases he : (select site.title_selector doc).isEmpty
      · rw [if_pos he]; exact h1
      · rw [if_neg he]
        exact processArticles_MergeInv env site _ 0 _ t h1

theorem foldl_MergeInv (env : Env) (sites : List Website) :
    ∀ (st : St) (t : String), MergeInv t st →
      MergeInv t (List.foldl (processSite env) st sites) := by
  induction sites with
  | nil => intro st t h; simpa using h
  | cons a rest ih =>
      intro st t h
      rw [List.foldl_cons]
      exact ih _ t (processSite_MergeInv env st a t h)

theorem finishRun_countLoopMerges (st : St) (t : String) :
    countLoopMerges t ((finishRun st).1).log = countLoopMerges t st.log := by
  unfold finishRun
  rcases st.lastTitle with _ | x <;> rcases st.lastData with _ | d <;>
    first
      | rfl
      | (show countLoopMerges t (st.log ++ [Event.mergeEv true _ _]) = countLoopMerges t st.log
         rw [countLoopMerges_append]
         simp [countLoopMerges, List.countP_cons])

/-- C3 (amended): during one run the candidate loop performs at most one
merge call per distinct trimmed title, and `shouldProcess` (the skip
check of the loop) rejects any candidate whose detail link is absent or
empty, touching nothing but the `title` local. -/
theorem C3_at_most_one_loop_merge (env : Env) (sites : List Website)
    (store : List NewsRecord) (t : String) :
    countLoopMerges t (fetch_news env sites store).1.log ≤ 1 ∧
    (∀ (site : Website) (st : St) (a : Html),
      pyTruthy (getAttr a "href") = false →
      processArticle env site st a = ({ st with lastTitle := some (getText a) }, false)) := by
  constructor
  · by_cases hs : 0 < store.length
    · simp [fetch_news, hs, countLoopMerges]
    · simp only [fetch_news, if_neg hs]
      have hinv : MergeInv t (List.foldl (processSite env) ⟨store, [], none, none, []⟩ sites) := by
        refine foldl_MergeInv env sites _ t ?_
        left
        simp [countLoopMerges]
      rw [finishRun_countLoopMerges]
      rcases hinv with h | ⟨hc, _⟩
      · omega
      · omega
  · intro site st a h
    exact processArticle_skip env site st a (Or.inr h)

end Bloomathon

namespace Bloomathon

/-- C5: per-source and per-candidate isolation. When a source's listing
fetch fails, the run continues with the remaining sources exactly as it
would from the state holding only the logged failure — so records from
the other sources are still created/updated; when an accepted
candidate's detail-page fetch fails, the loop continues with the
source's remaining candidates from the state in which only that
candidate's title and the logged failure were recorded. -/
theorem C5_per_source_isolation :
    (∀ (env : Env) (a : Website) (rest : List Website) (st : St),
        env.listing a.url = none →
        List.foldl (processSite env) st (a :: rest) =
          List.foldl (processSite env)
            { st with log := st.log ++ [Event.fetchListing a.url false] } rest) ∧
    (∀ (env : Env) (site : Website) (c : Html) (cs : List Html) (cnt : Nat) (st : St)
        (l0 : String),
        cnt < site.max_articles →
        getAttr c "href" = some l0 → l0 ≠ "" →
        getText c ∉ st.uniq →
        env.detail (resolveLink site l0) = none →
        processArticles env site (c :: cs) cnt st =
          processArticles env site cs cnt
            { st with lastTitle := some (getText c), uniq := getText c :: st.uniq,
                      log := st.log ++ [Event.fetchDetail (resolveLink site l0) false] }) := by
  constructor
  · intro env a rest st h
    rw [List.foldl_cons, processSite_none env st a h]
  · intro env site c cs cnt st l0 hcnt hl hne hu hd
    rw [processArticles, if_neg (Nat.not_le.mpr hcnt),
      processArticle_detailFail env site st c l0 hl hne hu hd]

theorem C5_per_source_isolation_witness :
    List.foldl (processSite envDown) st0 [siteC3a] =
      List.foldl (processSite envDown)
        { st0 with log := st0.log ++ [Event.fetchListing siteC3a.url false] } [] ∧
    processArticles envC3 siteC3a [anchorT] 0 st0 =
      processArticles envC3 siteC3a [] 0
        { st0 with lastTitle := some "T", uniq := ["T"],
                   log := [Event.fetchDetail "https://s1.example/a" false] } :=
  ⟨C5_per_source_isolation.1 envDown siteC3a [] st0 rfl,
   C5_per_source_isolation.2 envC3 siteC3a anchorT [] 0 st0 "/a"
     (by decide) rfl (by decide) (by decide) rfl⟩

/-- C6: media-failure tolerance. For an accepted candidate whose detail
page yields an image reference but whose media fetch/upload fails
(`upload_image_to_gridfs` returns `None` instead of raising), the
candidate's ContentRecord is still upserted into the store, with its
`image_id` set to `none`. -/
theorem C6_media_failure_tolerance (env : Env) (site : Website) (st : St) (a : Html)
    (l0 u : String) (ddoc : Html)
    (hl : getAttr a "href" = some l0) (hne : l0 ≠ "")
    (hu : getText a ∉ st.uniq)
    (hd : env.detail (resolveLink site l0) = some ddoc)
    (himg : extractImageRef site ddoc = some u) (hune : u ≠ "")
    (hdata : startsWithStr (urljoinModel site.url u) "data:image" = false)
    (hfail : upload_image_to_gridfs env (urljoinModel site.url u) = none) :
    processArticle env site st a =
      ({ st with lastTitle := some (getText a),
                 uniq := getText a :: st.uniq,
                 lastData := some ⟨getText a, resolveLink site l0, none, env.now⟩,
                 store := updateOne st.store (getText a)
                   ⟨getText a, resolveLink site l0, none, env.now⟩,
                 log := st.log ++ [Event.fetchDetail (resolveLink site l0) true,
                        Event.mergeEv false (getText a)
                          ⟨getText a, resolveLink site l0, none, env.now⟩] }, true) := by
  rw [processArticle_success env site st a l0 ddoc hl hne hu hd]
  simp [himg, pyTruthy, hune, hdata, hfail]

theorem C6_media_failure_tolerance_witness :
    processArticle envC6 siteC6 st0 anchorT =
      ({ st0 with lastTitle := some "T", uniq := ["T"],
                  lastData := some ⟨"T", "https://s1.example/a", none, 7⟩,
                  store := [⟨"T", "https://s1.example/a", none, 7⟩],
                  log := [Event.fetchDetail "https://s1.example/a" true,
                          Event.mergeEv false "T" ⟨"T", "https://s1.example/a", none, 7⟩] },
        true) :=
  C6_media_failure_tolerance envC6 siteC6 st0 anchorT "/a" "/img/p.png" docC6detail
    rfl (by decide) (by decide) rfl rfl (by decide) (by decide) rfl

/-- C10: RunState occupancy. Once a candidate's trimmed title passes the
skip check, the title is recorded in `unique_articles` even when the
candidate's detail-page fetch then fails and nothing is merged — the
state keeps the title with only the failed fetch logged — and any later
candidate whose trimmed title is already in `unique_articles` is skipped
entirely (no fetch, no merge, no store change), so such a title can
yield no ContentRecord at all from the run. -/
theorem C10_runstate_occupancy :
    (∀ (env : Env) (site : Website) (st : St) (c : Html) (l0 : String),
        getAttr c "href" = some l0 → l0 ≠ "" →
        getText c ∉ st.uniq →
        env.detail (resolveLink site l0) = none →
        processArticle env site st c =
          ({ st with lastTitle := some (getText c),
                     uniq := getText c :: st.uniq,
                     log := st.log ++ [Event.fetchDetail (resolveLink site l0) false] },
            false)) ∧
    (∀ (env : Env) (site : Website) (st : St) (a : Html),
        getText a ∈ st.uniq →
        processArticle env site st a = ({ st with lastTitle := some (getText a) }, false)) := by
  constructor
  · intro env site st c l0 hl hne hu hd
    exact processArticle_detailFail env site st c l0 hl hne hu hd
  · intro env site st a h
    exact processArticle_skip env site st a (Or.inl h)

theorem C10_runstate_occupancy_witness :
    processArticle envC3 siteC3a st0 anchorT =
      ({ st0 with lastTitle := some "T", uniq := ["T"],
                  log := [Event.fetchDetail "https://s1.example/a" false] }, false) ∧
    processArticle envC3 siteC3a
        ⟨[], ["T"], some "T", none, [Event.fetchDetail "https://s1.example/a" false]⟩
        anchorT =
      (⟨[], ["T"], some "T", none, [Event.fetchDetail "https://s1.example/a" false]⟩, false) :=
  ⟨C10_runstate_occupancy.1 envC3 siteC3a st0 anchorT "/a" rfl (by decide) (by decide) rfl,
   C10_runstate_occupancy.2 envC3 siteC3a
     ⟨[], ["T"], some "T", none, [Event.fetchDetail "https://s1.example/a" false]⟩
     anchorT (by decide)⟩

/-- C8 (amended): for every detail page and descriptor, `extractImageRef`
returns the first non-empty value among the matched element's `data-src`,
`src` and `srcset` attributes in that order — a present-but-empty
attribute is passed over like an absent one, and when both `data-src`
and `src` are absent or empty the raw `srcset` lookup is returned as-is;
`none` when no element matches the selector. -/
theorem C8_image_ref_priority (site : Website) (d : Html) :
    (selectOne site.image_selector d = none → extractImageRef site d = none) ∧
    (∀ (e : Html) (v : String), selectOne site.image_selector d = some e →
        getAttr e "data-src" = some v → v ≠ "" →
        extractImageRef site d = some v) ∧
    (∀ (e : Html) (v : String), selectOne site.image_selector d = some e →
        (getAttr e "data-src" = none ∨ getAttr e "data-src" = some "") →
        getAttr e "src" = some v → v ≠ "" →
        extractImageRef site d = some v) ∧
    (∀ (e : Html), selectOne site.image_selector d = some e →
        (getAttr e "data-src" = none ∨ getAttr e "data-src" = some "") →
        (getAttr e "src" = none ∨ getAttr e "src" = some "") →
        extractImageRef site d = getAttr e "srcset") := by
  refine ⟨?_, ?_, ?_, ?_⟩
  · intro h; simp [extractImageRef, h]
  · intro e v hs hd hv
    simp [extractImageRef, hs, pyOr, pyTruthy, hd, hv]
  · intro e v hs hd hsrc hv
    rcases hd with hd | hd <;> simp [extractImageRef, hs, pyOr, pyTruthy, hd, hsrc, hv]
  · intro e hs hd hsrc
    rcases hd with hd | hd <;> rcases hsrc with hsrc | hsrc <;>
      simp [extractImageRef, hs, pyOr, pyTruthy, hd, hsrc]

theorem C8_image_ref_priority_witness :
    extractImageRef siteC8 docC8lazy = some "https://img.example/lazy.png" :=
  (C8_image_ref_priority siteC8 docC8lazy).2.1
    (Html.elem "img" [("data-src", "https://img.example/lazy.png")] [])
    "https://img.example/lazy.png" rfl rfl (by decide)

/-- C9 (amended): on the spec's example — descriptor `h4 a` with
`max_articles = 1` over a listing with anchors ("Title A", `/x`) and
("Title B", `/y`) — exactly one candidate is processed, yielding the
single stored record ("Title A", `https://vanadzor.am/x`); in general a
relative link with a leading slash resolves to `"https://" + host of the
listing URL + link` (not `<base> + link`), while a relative link without
a leading slash resolves to `listing URL + link`. -/
theorem C9_capping_and_link_resolution :
    ((fetch_news envC9 [siteC9] []).1.log.countP
        (fun e => match e with | .mergeEv false _ _ => true | _ => false) = 1) ∧
    (fetch_news envC9 [siteC9] []).1.store =
      [⟨"Title A", "https://vanadzor.am/x", none, 0⟩] ∧
    (∀ (site : Website) (l : String),
        startsWithStr l "http" = false → startsWithStr l "/" = true →
        resolveLink site l = "https://" ++ hostOf site.url ++ l) ∧
    (∀ (site : Website) (l : String),
        startsWithStr l "http" = false → startsWithStr l "/" = false →
        resolveLink site l = site.url ++ l) := by
  refine ⟨by decide, by decide, ?_, ?_⟩
  · intro site l h1 h2
    simp [resolveLink, h1, h2]
  · intro site l h1 h2
    simp [resolveLink, h1, h2]

theorem C9_capping_and_link_resolution_witness :
    resolveLink siteC9 "/x" = "https://" ++ hostOf siteC9.url ++ "/x" ∧
    resolveLink siteC9 "y" = siteC9.url ++ "y" :=
  ⟨C9_capping_and_link_resolution.2.2.1 siteC9 "/x" (by decide) (by decide),
   C9_capping_and_link_resolution.2.2.2 siteC9 "y" (by decide) (by decide)⟩

theorem C2_cold_start_gate_witness :
    fetch_news envDown WEBSITES [rec1] = (⟨[rec1], [], none, none, []⟩, Except.ok ()) ∧
    ∃ ok, Event.fetchListing "https://vanadzor.am/news/" ok ∈
      (fetch_news envDown WEBSITES []).1.log :=
  ⟨(C2_cold_start_gate envDown WEBSITES [rec1]).1 (by decide),
   (C2_cold_start_gate envDown WEBSITES [rec1]).2
     ⟨"https://vanadzor.am/news/", "h4.entry-title a", "h4.entry-title a", "img", 6⟩
     (by decide)⟩

theorem C3_at_most_one_loop_merge_witness :
    countLoopMerges "T" (fetch_news envC3 [siteC3a, siteC3b] []).1.log ≤ 1 ∧
    processArticle envC3 siteC3a st0 anchorNoHref =
      ({ st0 with lastTitle := some "X" }, false) :=
  ⟨(C3_at_most_one_loop_merge envC3 [siteC3a, siteC3b] [] "T").1,
   (C3_at_most_one_loop_merge envC3 [siteC3a, siteC3b] [] "T").2 siteC3a st0 anchorNoHref
     (by decide)⟩

end Bloomathon
